import Mathlib

/-!
Verification development for the Nornir tutorial script `nornir_intro.py`.

The script itself contains only task functions (`say`, `count`, `say_new`,
`greet_and_count`, `greet_and_count_new`, `new_task`, `hello_world`), a
processor class `SaveResultToDict`, and calls into the Nornir framework.
The framework's engine (task runner, result aggregation, failed-hosts
registry, inventory inheritance, filtering) is not part of the repository,
so those parts are modelled from the specification document; definitions
whose doc comment starts with `Modelled from the spec:` are of that kind.
All other definitions are direct translations of the Python source.
-/

namespace Nornir

/-- Python `logging.DEBUG` numeric level. -/
def DEBUG : Nat := 10

/-- Python `logging.INFO` numeric level (Nornir's default severity). -/
def INFO : Nat := 20

/-- Python `logging.ERROR` numeric level. -/
def ERROR : Nat := 40

/-- One host's outcome for one task: host reference, payload, failure and
changed flags, severity level and optionally the captured exception message.
Mirrors Nornir's `Result` object as described in the spec's data model. -/
structure Result where
  name : String
  host : String
  result : String
  failed : Bool
  changed : Bool
  severity_level : Nat
  exception : Option String
deriving DecidableEq, Repr

/-- Ordered sequence of `Result`s for one host: index 0 is the top-level
task's result, later entries are subtask results in execution order. -/
abbrev MultiResult := List Result

/-- Aggregate failed flag of a `MultiResult`: true if any entry failed. -/
def multiFailed (mr : MultiResult) : Bool :=
  mr.any (fun r => r.failed)

/-- Mapping from host name to that host's `MultiResult`, in dispatch order. -/
abbrev AggregatedResult := List (String × MultiResult)

/-- Indexed lookup of a host's `MultiResult` in an `AggregatedResult`. -/
def lookupHost : AggregatedResult → String → Option MultiResult
  | [], _ => none
  | p :: rest, h => if p.1 = h then some p.2 else lookupHost rest h

/-- Aggregate failed flag: true if any host's `MultiResult` is failed. -/
def aggFailed (r : AggregatedResult) : Bool :=
  r.any (fun p => multiFailed p.2)

/-- Derived mapping of only the failed hosts of an `AggregatedResult`. -/
def failedHostsOf (r : AggregatedResult) : AggregatedResult :=
  r.filter (fun p => multiFailed p.2)

/-- Modelled from the spec: `AggregatedResult.raise_on_error` raises a
consolidated `NornirExecutionError` listing the failed hosts when at least
one host failed, and is a no-op otherwise.  Raising is modelled by the
`Except.error` constructor. -/
def raise_on_error (r : AggregatedResult) : Except String Unit :=
  if aggFailed r then
    Except.error ("NornirExecutionError: " ++
      String.intercalate ", " ((failedHostsOf r).map (fun p => p.1)))
  else
    Except.ok ()

/-- Outcome of running one Python task function body for one host: either a
normal return carrying the payload string, or a raised exception message. -/
inductive LeafOutcome where
  | ok : String → LeafOutcome
  | exn : String → LeafOutcome
deriving DecidableEq, Repr

/-- One `task.run(...)` subtask invocation inside a grouped task: the name
and severity passed to `task.run`, and the subtask function body. -/
structure SubCall where
  name : String
  severity_level : Nat
  body : String → LeafOutcome

/-- A task body: either a plain function, or a grouped task that invokes a
fixed sequence of subtasks via `task.run` and then computes its own return
value (the shape of `greet_and_count` / `greet_and_count_new`). -/
inductive TaskBody where
  | leaf : (String → LeafOutcome) → TaskBody
  | grouped : List SubCall → (String → LeafOutcome) → TaskBody

/-- A named unit of work with a requested severity level, per the spec's
data model for Task. -/
structure NTask where
  name : String
  severity_level : Nat
  body : TaskBody

/-- Modelled from the spec: how the runner turns one function invocation for
one host into a `Result`.  A normal return keeps the requested severity and
is not failed; an uncaught exception is captured, the result is marked
failed, the severity is elevated to `ERROR` regardless of the requested one,
and the exception message is recorded for later inspection. -/
def runLeaf (nm : String) (sev : Nat) (f : String → LeafOutcome)
    (host : String) : Result :=
  match f host with
  | LeafOutcome.ok payload =>
      { name := nm, host := host, result := payload, failed := false,
        changed := false, severity_level := sev, exception := none }
  | LeafOutcome.exn msg =>
      { name := nm, host := host, result := msg, failed := true,
        changed := false, severity_level := ERROR, exception := some msg }

/-- Modelled from the spec: execute the subtask invocations of a grouped
task in order for one host.  Returns the subtask `Result`s in invocation
order, and the exception message propagated to the parent when a subtask
raised (execution stops at the first raising subtask, whose failed `Result`
is still recorded). -/
def runSubs : List SubCall → String → List Result × Option String
  | [], _ => ([], none)
  | s :: rest, host =>
      match s.body host with
      | LeafOutcome.ok payload =>
          let r := runSubs rest host
          ({ name := s.name, host := host, result := payload, failed := false,
             changed := false, severity_level := s.severity_level,
             exception := none } :: r.1, r.2)
      | LeafOutcome.exn msg =>
          ([{ name := s.name, host := host, result := msg, failed := true,
              changed := false, severity_level := ERROR,
              exception := some msg }],
           some ("Subtask: " ++ s.name ++ " (failed)"))

/-- Modelled from the spec: run one task for one host, producing the host's
`MultiResult` with the top-level `Result` at index 0 followed by the subtask
`Result`s in invocation order.  An exception escaping a subtask propagates
to the parent, whose result is then failed at `ERROR` severity. -/
def runTaskOnHost (t : NTask) (host : String) : MultiResult :=
  match t.body with
  | TaskBody.leaf f => [runLeaf t.name t.severity_level f host]
  | TaskBody.grouped subs final =>
      let r := runSubs subs host
      match r.2 with
      | some msg =>
          { name := t.name, host := host, result := msg, failed := true,
            changed := false, severity_level := ERROR,
            exception := some msg } :: r.1
      | none => runLeaf t.name t.severity_level final host :: r.1

/-- Session state: the process-wide `FailedHostsRegistry` (`nr.data.failed_hosts`). -/
structure Session where
  failed_hosts : List String

/-- A fresh session: the registry is empty at session creation. -/
def initSession : Session := { failed_hosts := [] }

/-- Boolean membership of a host name in the registry. -/
def memb : List String → String → Bool
  | [], _ => false
  | x :: rest, h => if x = h then true else memb rest h

/-- Modelled from the spec: host selection for a run.  A host not in the
registry is included iff `on_good` is true; a host in the registry is
included iff `on_failed` is true (defaults: `on_failed := false`,
`on_good := true`). -/
def selectHosts (reg : List String) (hosts : List String)
    ( on_failed on_good : Bool) : List String :=
  hosts.filter (fun h => if memb reg h then on_failed else on_good)

/-- Modelled from the spec: `nr.run(task=t, on_failed=..., on_good=...)`.
Runs the task on the selected hosts, builds the `AggregatedResult` with one
entry per invoked host, and afterwards adds every newly failed host to the
registry (the registry only grows; successful hosts are never removed). -/
def runTask (s : Session) (hosts : List String) (t : NTask)
    ( on_failed on_good : Bool) : AggregatedResult × Session :=
  let sel := selectHosts s.failed_hosts hosts on_failed on_good
  (sel.map (fun h => (h, runTaskOnHost t h)),
   { failed_hosts := s.failed_hosts ++
       sel.filter (fun h =>
         multiFailed (runTaskOnHost t h) && !(memb s.failed_hosts h)) })

/-- Modelled from the spec: `nr.data.reset_failed_hosts()` empties the
registry, making every previously failed host eligible again. -/
def reset_failed_hosts (_s : Session) : Session := { failed_hosts := [] }

/-- Modelled from the spec: the filtered traversal of `print_result`: visit
only the `Result`s whose severity level is at or above the threshold
(default threshold `INFO`). -/
def visitBySeverity (mr : MultiResult) (threshold : Nat) : List Result :=
  mr.filter (fun r => decide (threshold ≤ r.severity_level))

end Nornir

namespace Nornir

/-- Python source: `hello_world` returns "<host> says hello world!". -/
def hello_world (hostName : String) : LeafOutcome :=
  LeafOutcome.ok (hostName ++ " says hello world!")

/-- Python source default for `say`'s `text` parameter. -/
def sayDefaultText : String := "default message"

/-- Python source: `say(task, text="default message")` returns
"<host> says <text>". -/
def say (text : String) (hostName : String) : LeafOutcome :=
  LeafOutcome.ok (hostName ++ " says " ++ text)

/-- Python `f"{[n for n in range(0, number)]}"`: the repr of the list
`[0, 1, ..., number-1]`. -/
def pyListRepr (number : Nat) : String :=
  "[" ++ String.intercalate ", " ((List.range number).map toString) ++ "]"

/-- Python source: `count(task, number)` returns the repr of
`[n for n in range(0, number)]`. -/
def count (number : Nat) (_hostName : String) : LeafOutcome :=
  LeafOutcome.ok (pyListRepr number)

/-- Python source: `"even" if (number + 1) % 2 == 1 else "odd"`. -/
def even_or_odds (number : Nat) : String :=
  if (number + 1) % 2 == 1 then "even" else "odd"

/-- Python source: `say_new(task, text="default msg",
exception_host_name="host2.cmh")` raises on the host whose name equals
`exception_host_name` and otherwise returns "<host> says <text>". -/
def say_new (text : String) (exception_host_name : String)
    (hostName : String) : LeafOutcome :=
  if hostName = exception_host_name then
    LeafOutcome.exn ("An Exception was raised on host " ++ exception_host_name)
  else
    LeafOutcome.ok (hostName ++ " says " ++ text)

/-- Python source default for `say_new`'s `text` parameter. -/
def sayNewDefaultText : String := "default msg"

/-- Python source: `new_task` returns "<host>: new task was run on.". -/
def new_task (hostName : String) : LeafOutcome :=
  LeafOutcome.ok (hostName ++ ": new task was run on.")

/-- Python source: `greet_and_count` runs `say` with the greet text, then
`count`, then `say` with the bye text, and returns
"<host> counted <even_or_odds> times!". -/
def greet_and_count (number : Nat) (greet : String) (bye : String) : NTask :=
  { name := "greet_and_count",
    severity_level := INFO,
    body := TaskBody.grouped
      [ { name := "The say function is called with the greet parameter",
          severity_level := INFO, body := say greet },
        { name := "The count function is called ",
          severity_level := INFO, body := count number },
        { name := "The say function is called with the bye parameter",
          severity_level := INFO, body := say bye } ]
      (fun hostName =>
        LeafOutcome.ok (hostName ++ " counted " ++ even_or_odds number ++ " times!")) }

/-- Python source: `greet_and_count_new` runs `say_new` with the greet text
at `logging.DEBUG` severity, then `count` at the default severity, then
`say_new` with the bye text at `logging.DEBUG` severity, and returns
"<host> counted <even_or_odds> times!". -/
def greet_and_count_new (number : Nat) (greet : String) (bye : String) : NTask :=
  { name := "greet_and_count_new",
    severity_level := INFO,
    body := TaskBody.grouped
      [ { name := "The say function is called with the greet parameter",
          severity_level := DEBUG, body := say_new greet "host2.cmh" },
        { name := "The count function is called ",
          severity_level := INFO, body := count number },
        { name := "The say function is called with the bye parameter",
          severity_level := DEBUG, body := say_new bye "host2.cmh" } ]
      (fun hostName =>
        LeafOutcome.ok (hostName ++ " counted " ++ even_or_odds number ++ " times!")) }

end Nornir

namespace Nornir

/-- A named, inheritable bundle of attributes, per the spec's data model. -/
structure Group where
  name : String
  data : List (String × String)

/-- A host: identity, own attribute data, and its groups in declared order. -/
structure Host where
  name : String
  data : List (String × String)
  groups : List Group

/-- First value bound to a key in an attribute mapping. -/
def lookupData : List (String × String) → String → Option String
  | [], _ => none
  | (k0, v) :: rest, k => if k0 = k then some v else lookupData rest k

/-- Modelled from the spec: walk the host's groups in declared order and
return the first group value bound to the key. -/
def findInGroups : List Group → String → Option String
  | [], _ => none
  | g :: gs, k =>
      match lookupData g.data k with
      | some v => some v
      | none => findInGroups gs k

/-- Modelled from the spec: attribute lookup `host[key]` resolves the key
against the host's own data first, then each group in declared order, then
the inventory defaults; if the key is absent at every level a `KeyError` is
raised at the point of lookup (modelled by `Except.error`). -/
def getItem (h : Host) (defaults : List (String × String))
    (k : String) : Except String String :=
  match lookupData h.data k with
  | some v => Except.ok v
  | none =>
      match findInGroups h.groups k with
      | some v => Except.ok v
      | none =>
          match lookupData defaults k with
          | some v => Except.ok v
          | none => Except.error ("KeyError: " ++ k)

/-- Modelled from the spec: `nr.filter(p)` returns the pair of the new
derived view (the hosts satisfying the predicate, in original order) and
the source inventory as it stands after the call — filtering is a read-only
projection and never mutates the source. -/
def filterCall (source : List Host) (p : Host → Bool) :
    List Host × List Host :=
  (source.filter p, source)

end Nornir

namespace Nornir

/-- A JSON-like value as stored by the `SaveResultToDict` processor. -/
inductive JVal where
  | b : Bool → JVal
  | s : String → JVal
  | obj : List (String × JVal) → JVal

/-- Python dict assignment `m[k] = v`: replace the binding in place when the
key is present, append it otherwise (insertion order preserved). -/
def setKey : List (String × JVal) → String → JVal → List (String × JVal)
  | [], k, v => [(k, v)]
  | (k0, v0) :: rest, k, v =>
      if k0 = k then (k0, v) :: rest else (k0, v0) :: setKey rest k v

/-- Python dict lookup `m[k]` as an `Option`. -/
def getKey : List (String × JVal) → String → Option JVal
  | [], _ => none
  | (k0, v0) :: rest, k => if k0 = k then some v0 else getKey rest k

/-- Apply a dictionary transformation inside a `JVal.obj`; other values are
left unchanged. -/
def applyObj (f : List (String × JVal) → List (String × JVal)) : JVal → JVal
  | JVal.obj m => JVal.obj (f m)
  | v => v

/-- Update the object stored under a key of the outer dictionary.  The hook
protocol guarantees the key is present and bound to an object whenever this
is used; absent keys are left unchanged. -/
def updateInner : List (String × JVal) → String →
    (List (String × JVal) → List (String × JVal)) → List (String × JVal)
  | [], _, _ => []
  | (k0, v0) :: rest, k, f =>
      if k0 = k then (k0, applyObj f v0) :: updateInner rest k f
      else (k0, v0) :: updateInner rest k f

namespace SaveResultToDict

/-- Python source: `task_started` sets `data[task.name] = {}` and then
`data[task.name]["started"] = True`. -/
def task_started (data : List (String × JVal)) (taskName : String) :
    List (String × JVal) :=
  updateInner (setKey data taskName (JVal.obj [])) taskName
    (fun inner => setKey inner "started" (JVal.b true))

/-- Python source: `task_completed` sets `data[task.name]["completed"] = True`. -/
def task_completed (data : List (String × JVal)) (taskName : String) :
    List (String × JVal) :=
  updateInner data taskName
    (fun inner => setKey inner "completed" (JVal.b true))

/-- Python source: `task_instance_started` sets
`data[task.name][host.name] = {"started": True}`. -/
def task_instance_started (data : List (String × JVal))
    (taskName : String) (hostName : String) : List (String × JVal) :=
  updateInner data taskName
    (fun inner => setKey inner hostName (JVal.obj [("started", JVal.b true)]))

/-- Python source: `task_instance_completed` sets
`data[task.name][host.name] = {"completed": True, "result": result.result}`. -/
def task_instance_completed (data : List (String × JVal))
    (taskName : String) (hostName : String) (res : String) :
    List (String × JVal) :=
  updateInner data taskName
    (fun inner => setKey inner hostName
      (JVal.obj [("completed", JVal.b true), ("result", JVal.s res)]))

end SaveResultToDict

/-- Modelled from the spec: the hook sequence of one single-host run as seen
by `SaveResultToDict` — task started, then the host's instance started and
completed, then task completed. -/
def processorRun (data : List (String × JVal)) (taskName : String)
    (hostName : String) (res : String) : List (String × JVal) :=
  SaveResultToDict.task_completed
    (SaveResultToDict.task_instance_completed
      (SaveResultToDict.task_instance_started
        (SaveResultToDict.task_started data taskName) taskName hostName)
      taskName hostName res)
    taskName

end Nornir

namespace Nornir

/-- Boolean registry membership agrees with list membership. -/
theorem memb_eq_true_iff : ∀ (reg : List String) (h : String),
    memb reg h = true ↔ h ∈ reg
  | [], h => by simp [memb]
  | x :: rest, h => by
      by_cases hx : x = h
      · subst hx; simp [memb]
      · simp only [memb, if_neg hx, memb_eq_true_iff rest h, List.mem_cons]
        constructor
        · exact Or.inr
        · rintro (he | hm)
          · exact absurd he.symm hx
          · exact hm

/-- Looking up a host that was dispatched returns its computed entry. -/
theorem lookupHost_map_of_mem (F : String → MultiResult) :
    ∀ (l : List String) (h : String), h ∈ l →
      lookupHost (l.map (fun x => (x, F x))) h = some (F h)
  | [], _, hm => absurd hm (List.not_mem_nil _)
  | x :: rest, h, hm => by
      by_cases hx : x = h
      · subst hx; simp [lookupHost]
      · have hr : h ∈ rest := by
          rcases List.mem_cons.mp hm with he | hr
          · exact absurd he.symm hx
          · exact hr
        simp [lookupHost, hx, lookupHost_map_of_mem F rest h hr]

/-- The keys of a run's `AggregatedResult` are exactly the selected hosts. -/
theorem runTask_keys (s : Session) (hosts : List String) (t : NTask)
    (b1 b2 : Bool) :
    (runTask s hosts t b1 b2).1.map (fun p => p.1)
      = selectHosts s.failed_hosts hosts b1 b2 := by
  simp only [runTask]
  induction selectHosts s.failed_hosts hosts b1 b2 with
  | nil => rfl
  | cons x xs ih => simp [ih]

/-- With an empty registry, a default-mode run selects every host. -/
theorem selectHosts_nil (hosts : List String) (b : Bool) :
    selectHosts [] hosts b true = hosts := by
  simp [selectHosts, memb]

/-- Composing two filters equals filtering by the conjunction. -/
theorem filter_filter_and (l : List Host) (p1 p2 : Host → Bool) :
    (l.filter p1).filter p2 = l.filter (fun h => p1 h && p2 h) := by
  induction l with
  | nil => rfl
  | cons x xs ih => cases h1 : p1 x <;> cases h2 : p2 x <;>
      simp [List.filter_cons, h1, h2, ih]

/-- When no subtask raised, the recorded subtask results carry the subtask
names in invocation order. -/
theorem runSubs_map_name_of_ok : ∀ (subs : List SubCall) (host : String),
    (runSubs subs host).2 = none →
    (runSubs subs host).1.map (fun r => r.name) = subs.map (fun s => s.name)
  | [], _, _ => rfl
  | s :: rest, host, hnone => by
      cases hb : s.body host with
      | ok payload =>
          have h2 : (runSubs rest host).2 = none := by
            simpa [runSubs, hb] using hnone
          simp [runSubs, hb, runSubs_map_name_of_ok rest host h2]
      | exn msg => simp [runSubs, hb] at hnone

/-- Reading back the key just written by a dict assignment. -/
theorem getKey_setKey_self : ∀ (m : List (String × JVal)) (k : String)
    (v : JVal), getKey (setKey m k v) k = some v
  | [], k, v => by simp [setKey, getKey]
  | (k0, v0) :: rest, k, v => by
      by_cases hk : k0 = k
      · simp [setKey, getKey, hk]
      · simp [setKey, getKey, hk, getKey_setKey_self rest k v]

/-- Reading the key whose inner object was just updated in place. -/
theorem getKey_updateInner_self : ∀ (m : List (String × JVal)) (k : String)
    (f : List (String × JVal) → List (String × JVal)),
    getKey (updateInner m k f) k = (getKey m k).map (applyObj f)
  | [], _, _ => rfl
  | (k0, v0) :: rest, k, f => by
      by_cases hk : k0 = k
      · simp [updateInner, getKey, hk]
      · simp [updateInner, getKey, hk, getKey_updateInner_self rest k f]

end Nornir

namespace Nornir

/-- C2: for any registry contents (in particular the hosts that failed a
prior run), a run with the default arguments (`on_failed := false`,
`on_good := true`) executes the task exactly on the hosts not in the
registry; a run with `on_failed := true` executes on all hosts of the view;
and a run with `on_failed := true` and `on_good := false` executes on
exactly the hosts in the registry. -/
theorem c2_run_gating (reg hosts : List String) (t : NTask) :
    ((runTask { failed_hosts := reg } hosts t false true).1.map (fun p => p.1)
        = hosts.filter (fun h => !(memb reg h))) ∧
    ((runTask { failed_hosts := reg } hosts t true true).1.map (fun p => p.1)
        = hosts) ∧
    ((runTask { failed_hosts := reg } hosts t true false).1.map (fun p => p.1)
        = hosts.filter (fun h => memb reg h)) := by
  refine ⟨?_, ?_, ?_⟩
  · rw [runTask_keys]
    simp only [selectHosts]
    apply List.filter_congr
    intro a _
    cases memb reg a <;> rfl
  · rw [runTask_keys]
    simp only [selectHosts]
    have he : ∀ a ∈ hosts,
        (if memb reg a then true else true) = (fun _ => true) a := by
      intro a _
      cases memb reg a <;> rfl
    rw [List.filter_congr he, List.filter_true]
  · rw [runTask_keys]
    simp only [selectHosts]
    apply List.filter_congr
    intro a _
    cases memb reg a <;> rfl

/-- C2 witness: with `host2.cmh` in the registry, an `on_failed := true`
run over the two-host view executes on both hosts. -/
theorem c2_run_gating_witness :
    (runTask { failed_hosts := ["host2.cmh"] } ["host1.cmh", "host2.cmh"]
        { name := "new_task", severity_level := INFO,
          body := TaskBody.leaf new_task } true true).1.map (fun p => p.1)
      = ["host1.cmh", "host2.cmh"] :=
  (c2_run_gating ["host2.cmh"] ["host1.cmh", "host2.cmh"]
    { name := "new_task", severity_level := INFO,
      body := TaskBody.leaf new_task }).2.1

/-- C4: applying `filter(P1)` and then `filter(P2)` yields the same host
set as the single conjunctive `filter(P1 AND P2)`, and no filter call
mutates its source: each call returns a new view and hands back its source
inventory unchanged. -/
theorem c4_filter_conjunction_pure (source : List Host) (p1 p2 : Host → Bool) :
    ((filterCall (filterCall source p1).1 p2).1
        = (filterCall source (fun h => p1 h && p2 h)).1) ∧
    (filterCall source p1).2 = source ∧
    (filterCall (filterCall source p1).1 p2).2 = (filterCall source p1).1 :=
  ⟨filter_filter_and source p1 p2, rfl, rfl⟩

/-- C4 witness: instantiation at a two-host inventory and the
`site="cmh"` / `role="spine"` predicates from the tutorial. -/
theorem c4_filter_conjunction_pure_witness :
    ((filterCall (filterCall
          [{ name := "host1.cmh", data := [("site", "cmh"), ("role", "host")],
             groups := [] },
           { name := "spine00.cmh", data := [("site", "cmh"), ("role", "spine")],
             groups := [] }]
          (fun h => lookupData h.data "site" == some "cmh")).1
        (fun h => lookupData h.data "role" == some "spine")).1
      = (filterCall
          [{ name := "host1.cmh", data := [("site", "cmh"), ("role", "host")],
             groups := [] },
           { name := "spine00.cmh", data := [("site", "cmh"), ("role", "spine")],
             groups := [] }]
          (fun h => (lookupData h.data "site" == some "cmh")
            && (lookupData h.data "role" == some "spine"))).1) :=
  (c4_filter_conjunction_pure
    [{ name := "host1.cmh", data := [("site", "cmh"), ("role", "host")],
       groups := [] },
     { name := "spine00.cmh", data := [("site", "cmh"), ("role", "spine")],
       groups := [] }]
    (fun h => lookupData h.data "site" == some "cmh")
    (fun h => lookupData h.data "role" == some "spine")).1

/-- C9: the `say` task invoked with its default text returns a successful
result whose payload is "<host name> says default message", and invoked
with any text `t` it returns payload "<host name> says <t>"; in both cases
the host's result is neither failed nor changed, at the requested severity. -/
theorem c9_say_result (hostName t : String) :
    (runTaskOnHost { name := "say", severity_level := INFO,
                     body := TaskBody.leaf (say sayDefaultText) } hostName
      = [{ name := "say", host := hostName,
           result := hostName ++ " says default message", failed := false,
           changed := false, severity_level := INFO, exception := none }]) ∧
    (runTaskOnHost { name := "say", severity_level := INFO,
                     body := TaskBody.leaf (say t) } hostName
      = [{ name := "say", host := hostName,
           result := hostName ++ " says " ++ t, failed := false,
           changed := false, severity_level := INFO, exception := none }]) := by
  constructor
  · simp only [runTaskOnHost, runLeaf, say, sayDefaultText]
    rw [String.append_assoc]
    exact rfl
  · rfl

/-- C9 witness: evaluation at `host1.cmh` with the text "buhbye!". -/
theorem c9_say_result_witness :
    runTaskOnHost { name := "say", severity_level := INFO,
                    body := TaskBody.leaf (say "buhbye!") } "host1.cmh"
      = [{ name := "say", host := "host1.cmh",
           result := "host1.cmh says buhbye!", failed := false,
           changed := false, severity_level := INFO, exception := none }] :=
  (c9_say_result "host1.cmh" "buhbye!").2

end Nornir

namespace Nornir

/-- C3: attribute lookup resolves a key against the host's own data first,
then each group in declared order, then the defaults; a key absent at every
level raises a `KeyError` at the point of lookup instead of silently
returning a null value; and swapping the declared group order swaps which
group's value wins. -/
theorem c3_lookup_precedence
    (h : Host) (defaults : List (String × String)) (k : String)
    (g1 g2 : Group) (gs : List Group) (v v1 v2 : String) :
    (lookupData h.data k = some v → getItem h defaults k = Except.ok v) ∧
    (lookupData h.data k = none → findInGroups h.groups k = some v →
        getItem h defaults k = Except.ok v) ∧
    (lookupData h.data k = none → findInGroups h.groups k = none →
        lookupData defaults k = some v → getItem h defaults k = Except.ok v) ∧
    (lookupData h.data k = none → findInGroups h.groups k = none →
        lookupData defaults k = none →
        getItem h defaults k = Except.error ("KeyError: " ++ k)) ∧
    (lookupData g1.data k = some v1 → findInGroups (g1 :: gs) k = some v1) ∧
    (lookupData g1.data k = none →
        findInGroups (g1 :: gs) k = findInGroups gs k) ∧
    (lookupData h.data k = none → lookupData g1.data k = some v1 →
        lookupData g2.data k = some v2 →
        getItem { name := h.name, data := h.data, groups := [g1, g2] }
            defaults k = Except.ok v1 ∧
        getItem { name := h.name, data := h.data, groups := [g2, g1] }
            defaults k = Except.ok v2) := by
  refine ⟨?_, ?_, ?_, ?_, ?_, ?_, ?_⟩
  · intro h1; simp [getItem, h1]
  · intro h1 h2; simp [getItem, h1, h2]
  · intro h1 h2 h3; simp [getItem, h1, h2, h3]
  · intro h1 h2 h3; simp [getItem, h1, h2, h3]
  · intro h1; simp [findInGroups, h1]
  · intro h1; simp [findInGroups, h1]
  · intro h1 h2 h3
    constructor
    · simp [getItem, findInGroups, h1, h2]
    · simp [getItem, findInGroups, h1, h3]

/-- C3 witness: with no own data, a key bound in both groups resolves to
the first declared group's value. -/
theorem c3_lookup_precedence_witness :
    getItem { name := "leaf01.bma", data := [],
              groups := [{ name := "eu", data := [("asn", "65100")] },
                         { name := "global", data := [("asn", "65000")] }] }
        [] "asn" = Except.ok "65100" :=
  ((c3_lookup_precedence
      { name := "leaf01.bma", data := [],
        groups := [{ name := "eu", data := [("asn", "65100")] },
                   { name := "global", data := [("asn", "65000")] }] }
      [] "asn"
      { name := "eu", data := [("asn", "65100")] }
      { name := "global", data := [("asn", "65000")] }
      [] "x" "65100" "65000").2.2.2.2.2.2 rfl rfl rfl).1

/-- C5: `raise_on_error` on a completed run's `AggregatedResult` raises the
consolidated `NornirExecutionError` precisely when at least one host's
`MultiResult` is failed, and is a no-op (returns normally) when no host
failed. -/
theorem c5_raise_on_error_iff (r : AggregatedResult) :
    (raise_on_error r = Except.ok () ↔ aggFailed r = false) ∧
    ((∃ e, raise_on_error r = Except.error e) ↔
        ∃ p ∈ r, multiFailed p.2 = true) := by
  constructor
  · cases hf : aggFailed r <;> simp [raise_on_error, hf]
  · constructor
    · rintro ⟨e, he⟩
      rw [raise_on_error] at he
      by_cases hf : aggFailed r = true
      · obtain ⟨p, hmem, hfail⟩ := List.any_eq_true.mp hf
        exact ⟨p, hmem, hfail⟩
      · rw [if_neg hf] at he
        exact Except.noConfusion he
    · rintro ⟨p, hmem, hfail⟩
      have hf : aggFailed r = true := List.any_eq_true.mpr ⟨p, hmem, hfail⟩
      rw [raise_on_error, if_pos hf]
      exact ⟨_, rfl⟩

/-- C5 witness: instantiation at an `AggregatedResult` with one failed
host. -/
theorem c5_raise_on_error_iff_witness :
    raise_on_error [("host2.cmh",
        [{ name := "say_new", host := "host2.cmh",
           result := "An Exception was raised on host host2.cmh",
           failed := true, changed := false, severity_level := ERROR,
           exception := some "An Exception was raised on host host2.cmh" }])]
      = Except.ok ()
    ↔ aggFailed [("host2.cmh",
        [{ name := "say_new", host := "host2.cmh",
           result := "An Exception was raised on host host2.cmh",
           failed := true, changed := false, severity_level := ERROR,
           exception := some "An Exception was raised on host host2.cmh" }])]
      = false :=
  (c5_raise_on_error_iff [("host2.cmh",
    [{ name := "say_new", host := "host2.cmh",
       result := "An Exception was raised on host host2.cmh",
       failed := true, changed := false, severity_level := ERROR,
       exception := some "An Exception was raised on host host2.cmh" }])]).1

/-- C7: the severity-filtered traversal visits exactly the results at or
above the threshold; with the default `INFO` threshold the `DEBUG`-level
subtask results of `greet_and_count_new` are hidden, and lowering the
threshold to `DEBUG` makes every result visible. -/
theorem c7_severity_threshold (mr : MultiResult) (th : Nat) (r : Result) :
    (r ∈ visitBySeverity mr th ↔ r ∈ mr ∧ th ≤ r.severity_level) ∧
    (visitBySeverity
        (runTaskOnHost (greet_and_count_new 5 "Hello, there" "Bye now")
          "host1.cmh") INFO
      = [{ name := "greet_and_count_new", host := "host1.cmh",
           result := "host1.cmh counted odd times!", failed := false,
           changed := false, severity_level := INFO, exception := none },
         { name := "The count function is called ", host := "host1.cmh",
           result := "[0, 1, 2, 3, 4]", failed := false,
           changed := false, severity_level := INFO, exception := none }]) ∧
    (visitBySeverity
        (runTaskOnHost (greet_and_count_new 5 "Hello, there" "Bye now")
          "host1.cmh") DEBUG
      = runTaskOnHost (greet_and_count_new 5 "Hello, there" "Bye now")
          "host1.cmh") := by
  refine ⟨?_, ?_, ?_⟩
  · simp [visitBySeverity, List.mem_filter]
  · rfl
  · rfl

/-- C7 witness: instantiation at the concrete `host1.cmh` multi-result. -/
theorem c7_severity_threshold_witness :
    visitBySeverity
        (runTaskOnHost (greet_and_count_new 5 "Hello, there" "Bye now")
          "host1.cmh") DEBUG
      = runTaskOnHost (greet_and_count_new 5 "Hello, there" "Bye now")
          "host1.cmh" :=
  (c7_severity_threshold [] 0
    { name := "", host := "", result := "", failed := false,
      changed := false, severity_level := 0, exception := none }).2.2

end Nornir

namespace Nornir

/-- C1: when the task body raises on exactly one host `X` of the run and
returns normally on every other host, the `AggregatedResult` has an entry
for every invoked host; `X`'s entry is failed, its severity is elevated to
`ERROR` no matter which severity `sev` was requested, and the exception is
recorded in `X`'s result; every other host's entry is the ordinary
successful result at the requested severity, unaffected by `X`'s failure;
and the aggregate `.failed` flag is true. -/
theorem c1_single_host_exception
    (hosts : List String) (X : String) (nm : String) (sev : Nat)
    (f : String → LeafOutcome) (msg : String) (g : String → String)
    (hX : X ∈ hosts)
    (hraise : f X = LeafOutcome.exn msg)
    (hok : ∀ h, h ≠ X → f h = LeafOutcome.ok (g h)) :
    (∀ h ∈ hosts,
      (lookupHost (runTask initSession hosts
        { name := nm, severity_level := sev, body := TaskBody.leaf f }
        false true).1 h).isSome = true) ∧
    (lookupHost (runTask initSession hosts
        { name := nm, severity_level := sev, body := TaskBody.leaf f }
        false true).1 X
      = some [{ name := nm, host := X, result := msg, failed := true,
                changed := false, severity_level := ERROR,
                exception := some msg }]) ∧
    (∀ h ∈ hosts, h ≠ X →
      lookupHost (runTask initSession hosts
        { name := nm, severity_level := sev, body := TaskBody.leaf f }
        false true).1 h
        = some [{ name := nm, host := h, result := g h, failed := false,
                  changed := false, severity_level := sev,
                  exception := none }]) ∧
    aggFailed (runTask initSession hosts
        { name := nm, severity_level := sev, body := TaskBody.leaf f }
        false true).1 = true := by
  have hagg : (runTask initSession hosts
      { name := nm, severity_level := sev, body := TaskBody.leaf f }
      false true).1
      = hosts.map (fun h => (h, runTaskOnHost
          { name := nm, severity_level := sev, body := TaskBody.leaf f } h)) := by
    simp only [runTask, initSession, selectHosts_nil]
  refine ⟨?_, ?_, ?_, ?_⟩
  · intro h hm
    rw [hagg, lookupHost_map_of_mem _ hosts h hm]
    rfl
  · rw [hagg, lookupHost_map_of_mem _ hosts X hX]
    simp [runTaskOnHost, runLeaf, hraise]
  · intro h hm hne
    rw [hagg, lookupHost_map_of_mem _ hosts h hm]
    simp [runTaskOnHost, runLeaf, hok h hne]
  · rw [hagg]
    apply List.any_eq_true.mpr
    refine ⟨(X, runTaskOnHost
      { name := nm, severity_level := sev, body := TaskBody.leaf f } X),
      List.mem_map_of_mem _ hX, ?_⟩
    simp [runTaskOnHost, runLeaf, hraise, multiFailed]

/-- C1 witness: `say_new` raising on `host2.cmh` and succeeding on
`host1.cmh` makes the aggregate `.failed` flag true. -/
theorem c1_single_host_exception_witness :
    aggFailed (runTask initSession ["host1.cmh", "host2.cmh"]
      { name := "say_new", severity_level := INFO,
        body := TaskBody.leaf (say_new "buhbye!" "host2.cmh") }
      false true).1 = true :=
  (c1_single_host_exception ["host1.cmh", "host2.cmh"] "host2.cmh" "say_new"
    INFO (say_new "buhbye!" "host2.cmh")
    "An Exception was raised on host host2.cmh"
    (fun h => h ++ " says " ++ "buhbye!")
    (by simp) rfl
    (fun h hne => by simp [say_new, hne])).2.2.2

/-- C6: the `FailedHostsRegistry` is empty at session creation; a run never
removes hosts from it (it only grows); a host is in the post-run registry
exactly when it was already there or it was selected for this run and its
top-level `MultiResult` failed; `reset_failed_hosts` empties it; and a
default-mode run after a reset includes every host of the view again. -/
theorem c6_registry_lifecycle (s : Session) (hosts : List String) (t : NTask)
    (b1 b2 : Bool) (x : String) :
    initSession.failed_hosts = [] ∧
    (x ∈ s.failed_hosts → x ∈ (runTask s hosts t b1 b2).2.failed_hosts) ∧
    (x ∈ (runTask s hosts t b1 b2).2.failed_hosts ↔
        x ∈ s.failed_hosts ∨
          (x ∈ selectHosts s.failed_hosts hosts b1 b2 ∧
           multiFailed (runTaskOnHost t x) = true)) ∧
    (reset_failed_hosts s).failed_hosts = [] ∧
    ((runTask (reset_failed_hosts s) hosts t false true).1.map (fun p => p.1)
        = hosts) := by
  refine ⟨rfl, ?_, ?_, rfl, ?_⟩
  · intro hx
    simp only [runTask, List.mem_append]
    exact Or.inl hx
  · simp only [runTask, List.mem_append, List.mem_filter, Bool.and_eq_true,
      Bool.not_eq_true']
    by_cases hxo : x ∈ s.failed_hosts
    · simp [hxo]
    · have hm : memb s.failed_hosts x = false := by
        cases hmb : memb s.failed_hosts x
        · rfl
        · exact absurd ((memb_eq_true_iff _ _).mp hmb) hxo
      simp [hxo, hm, and_comm]
  · rw [runTask_keys]
    exact selectHosts_nil hosts false

/-- C6 witness: a host that fails a run is recorded in the registry. -/
theorem c6_registry_lifecycle_witness :
    "host2.cmh" ∈ (runTask initSession ["host1.cmh", "host2.cmh"]
      { name := "say_new", severity_level := INFO,
        body := TaskBody.leaf (say_new "buhbye!" "host2.cmh") }
      false true).2.failed_hosts :=
  ((c6_registry_lifecycle initSession ["host1.cmh", "host2.cmh"]
      { name := "say_new", severity_level := INFO,
        body := TaskBody.leaf (say_new "buhbye!" "host2.cmh") }
      false true "host2.cmh").2.2.1).mpr
    (Or.inr ⟨by simp [selectHosts, initSession, memb],
      by simp [runTaskOnHost, runLeaf, say_new, multiFailed]⟩)

/-- C8: every `MultiResult` produced by a run is non-empty; its entry at
index 0 is the top-level task's result (bearing the task's name); and for a
grouped task its remaining entries are exactly the recorded subtask results,
which - when no subtask raised - carry the subtask names in exactly the
order the body invoked them. -/
theorem c8_multiresult_shape (t : NTask) (host : String) :
    runTaskOnHost t host ≠ [] ∧
    ((runTaskOnHost t host).head?.map (fun r => r.name) = some t.name) ∧
    (∀ subs final, t.body = TaskBody.grouped subs final →
        (runTaskOnHost t host).tail = (runSubs subs host).1) ∧
    (∀ subs final, t.body = TaskBody.grouped subs final →
        (runSubs subs host).2 = none →
        (runTaskOnHost t host).tail.map (fun r => r.name)
          = subs.map (fun s => s.name)) := by
  obtain ⟨nm, sev, body⟩ := t
  cases body with
  | leaf f =>
      refine ⟨?_, ?_, ?_, ?_⟩
      · simp [runTaskOnHost]
      · cases hf : f host <;> simp [runTaskOnHost, runLeaf, hf]
      · intro subs final hb; simp at hb
      · intro subs final hb; simp at hb
  | grouped subs0 final0 =>
      refine ⟨?_, ?_, ?_, ?_⟩
      · cases hs : (runSubs subs0 host).2 <;> simp [runTaskOnHost, hs]
      · cases hs : (runSubs subs0 host).2 with
        | none => cases hf : final0 host <;>
            simp [runTaskOnHost, runLeaf, hs, hf]
        | some msg => simp [runTaskOnHost, hs]
      · intro subs final hb
        injection hb with hb1 hb2
        subst hb1
        subst hb2
        cases hs : (runSubs subs0 host).2 <;> simp [runTaskOnHost, hs]
      · intro subs final hb hnone
        injection hb with hb1 hb2
        subst hb1
        subst hb2
        have h3 : (runTaskOnHost
            { name := nm, severity_level := sev,
              body := TaskBody.grouped subs0 final0 } host).tail
            = (runSubs subs0 host).1 := by
          simp [runTaskOnHost, hnone]
        rw [h3, runSubs_map_name_of_ok subs0 host hnone]

/-- C8 witness: the `greet_and_count` multi-result for `host1.cmh` lists the
three subtask names after the top-level entry, in invocation order. -/
theorem c8_multiresult_shape_witness :
    (runTaskOnHost (greet_and_count 5 "Hello, there" "Bye now")
        "host1.cmh").tail.map (fun r => r.name)
      = ["The say function is called with the greet parameter",
         "The count function is called ",
         "The say function is called with the bye parameter"] := by
  have h := (c8_multiresult_shape
      (greet_and_count 5 "Hello, there" "Bye now") "host1.cmh").2.2.2
      _ _ rfl rfl
  simpa using h

/-- C10: once `task_instance_completed` has fired for task `T` and host `H`
(in the hook order of one run), the entry `data[T][H]` holds exactly the
object `{"completed": true, "result": res}` - the `{"started": true}`
marker written by `task_instance_started` has been replaced wholesale and
no "started" key remains inside that entry - while the task-level
"started" and "completed" keys of `data[T]` are both still present. -/
theorem c10_wholesale_replacement
    (data : List (String × JVal)) (T H res : String)
    (hH1 : H ≠ "started") (hH2 : H ≠ "completed") :
    (getKey (processorRun data T H res) T
      = some (JVal.obj [("started", JVal.b true),
          (H, JVal.obj [("completed", JVal.b true), ("result", JVal.s res)]),
          ("completed", JVal.b true)])) ∧
    (getKey [("started", JVal.b true),
        (H, JVal.obj [("completed", JVal.b true), ("result", JVal.s res)]),
        ("completed", JVal.b true)] H
      = some (JVal.obj [("completed", JVal.b true), ("result", JVal.s res)])) ∧
    (getKey [("completed", JVal.b true), ("result", JVal.s res)] "started"
      = none) ∧
    (getKey [("started", JVal.b true),
        (H, JVal.obj [("completed", JVal.b true), ("result", JVal.s res)]),
        ("completed", JVal.b true)] "started" = some (JVal.b true)) ∧
    (getKey [("started", JVal.b true),
        (H, JVal.obj [("completed", JVal.b true), ("result", JVal.s res)]),
        ("completed", JVal.b true)] "completed" = some (JVal.b true)) := by
  have h1 : ("started" : String) ≠ H := fun e => hH1 e.symm
  have h2 : ("completed" : String) ≠ H := fun e => hH2 e.symm
  refine ⟨?_, ?_, ?_, ?_, ?_⟩
  · simp only [processorRun, SaveResultToDict.task_started,
      SaveResultToDict.task_instance_started,
      SaveResultToDict.task_instance_completed,
      SaveResultToDict.task_completed]
    rw [getKey_updateInner_self, getKey_updateInner_self,
      getKey_updateInner_self, getKey_updateInner_self, getKey_setKey_self]
    simp [applyObj, setKey, h1, h2, hH2]
  · simp [getKey, h1]
  · simp [getKey]
  · simp [getKey]
  · simp [getKey, h1, h2, hH2]

/-- C10 witness: concrete run of the "hi!" task on `host1.cmh`. -/
theorem c10_wholesale_replacement_witness :
    getKey (processorRun [] "hi!" "host1.cmh" "hi! my name is host1.cmh")
        "hi!"
      = some (JVal.obj [("started", JVal.b true),
          ("host1.cmh", JVal.obj [("completed", JVal.b true),
            ("result", JVal.s "hi! my name is host1.cmh")]),
          ("completed", JVal.b true)]) :=
  (c10_wholesale_replacement [] "hi!" "host1.cmh"
    "hi! my name is host1.cmh" (by decide) (by decide)).1

end Nornir
